import Mathlib

/-!
Shallow embedding of the lookup-resolution logic of the inventree-lookup
browser extension (src/background.js and src/options.js), together with
theorems settling the frozen claims about it.

Conventions of the embedding:
- Chrome storage reads become explicit `Settings` / history arguments.
- `fetch` becomes an oracle `FetchCall → FetchResult` passed to the resolver;
  the list of calls actually issued is recorded in the result.
- JavaScript falsiness of strings (`!s` true for undefined and "") is modelled
  explicitly at each use site.
- JS identifiers are kept except where the development shortens `Prefix` to
  `Pfx` in field names and where `type` is a Lean keyword (field `type'`).
-/

namespace InvLook

/-! ## Regex embedding

The source tests anchored case-insensitive regexes (regex.test on a
full-string-anchored pattern).  Character-level matchers below embed the two
regex shapes that `buildPatterns` (src/background.js lines 26-71) constructs.
-/

/-- Case-insensitive character comparison, the canonicalisation done by a
JavaScript regex with the `i` flag (ASCII range, which covers every pattern
and input in this codebase). -/
def ciCharEq (a b : Char) : Bool := a.toUpper == b.toUpper

/-- The class `\d` of the source regexes. -/
def isRegexDigit (c : Char) : Bool := c.isDigit

/-- The class `[A-Z]` under the `i` flag: any ASCII letter. -/
def isRegexLetter (c : Char) : Bool := c.isAlpha

/-- Tail after the two variant digits of the Part regex: the optional
variant revision letter, then the anchor `$`. -/
def partVariantTail : List Char → Bool
  | [] => true
  | [c] => isRegexLetter c
  | _ => false

/-- After the `-` of the variant group: exactly two digits, then
`partVariantTail`. -/
def partAfterVariantDash : List Char → Bool
  | d1 :: d2 :: rest => isRegexDigit d1 && isRegexDigit d2 && partVariantTail rest
  | _ => false

/-- The optional variant group `(-\d\x7b2\x7d[A-Z]?)?` followed by `$`. -/
def partOptVariant : List Char → Bool
  | [] => true
  | '-' :: rest => partAfterVariantDash rest
  | _ => false

/-- The optional revision letter `[A-Z]?` followed by the variant group.
Consuming a leading letter greedily is complete here: a letter can never
start the variant group (which needs `-` or end of input). -/
def partOptRevision : List Char → Bool
  | [] => true
  | c :: rest =>
    if isRegexLetter c then partOptVariant rest else partOptVariant (c :: rest)

/-- Anchored test of the Part regex of `buildPatterns`
(src/background.js line 33): `^CE\d\x7b3,4\x7d[A-Z]?(-\d\x7b2\x7d[A-Z]?)?$`
with the `i` flag.  The maximal run of digits after `CE` must have length
exactly 3 or 4, because no construct after `\d\x7b3,4\x7d` can consume a
digit; so the deterministic `takeWhile` is equivalent to the backtracking
regex. -/
def partRegexTest (s : String) : Bool :=
  match s.toList with
  | c1 :: c2 :: rest =>
    ciCharEq c1 'C' && ciCharEq c2 'E' &&
    (let ds := rest.takeWhile isRegexDigit
     (ds.length == 3 || ds.length == 4) && partOptRevision (rest.drop ds.length))
  | _ => false

/-- Case-insensitively consume a literal character list from the front of the
input, returning the remainder. -/
def dropCI : List Char → List Char → Option (List Char)
  | [], s => some s
  | _ :: _, [] => none
  | p :: ps, c :: cs => if ciCharEq p c then dropCI ps cs else none

/-- The set of characters escaped by `escapeRegex` (src/background.js
line 22). -/
def regexSpecialChars : List Char :=
  ['.', '*', '+', '?', '^', '$', '\x7b', '\x7d', '(', ')', '|', '[', ']', '\\']

/-- The source's `escapeRegex`: backslash-escape every regex metacharacter,
so that each character of the escaped string denotes itself as a literal. -/
def escapeRegex (s : String) : String :=
  String.mk (s.toList.foldr
    (fun c acc => if regexSpecialChars.contains c then '\\' :: c :: acc else c :: acc) [])

/-- Anchored test of an order regex of `buildPatterns`:
`new RegExp('^' + escapeRegex(pfx) + '\\d+$', 'i')`.  Because every
character of the escaped literal matches exactly itself (case-insensitively
under the `i` flag), the regex accepts precisely the literal prefix followed
by one or more digits. -/
def orderRegexTest (pfx : String) (s : String) : Bool :=
  match dropCI pfx.toList s.toList with
  | some rest => !rest.isEmpty && rest.all isRegexDigit
  | none => false

/-! ## JS string primitives

Character-list implementations of the JS string methods the source uses, so
that concrete runs reduce inside the kernel. -/

/-- JS `String.prototype.trim`: strip leading and trailing whitespace. -/
def jsTrim (s : String) : String :=
  String.mk (((s.toList.dropWhile Char.isWhitespace).reverse.dropWhile
    Char.isWhitespace).reverse)

/-- JS `String.prototype.toUpperCase` (ASCII range, which covers every
pattern and reference in this codebase). -/
def jsToUpper (s : String) : String :=
  String.mk (s.toList.map Char.toUpper)

/-- Replace the first occurrence of `pat` (non-empty) in the third list. -/
def replaceFirstAux (pat repl : List Char) : List Char → List Char
  | [] => []
  | c :: rest =>
    if pat.isPrefixOf (c :: rest) then repl ++ (c :: rest).drop pat.length
    else c :: replaceFirstAux pat repl rest

/-- JS `String.prototype.replace` with a plain-string pattern: replaces only
the first occurrence. -/
def jsReplaceFirst (s pat repl : String) : String :=
  String.mk (replaceFirstAux pat.toList repl.toList s.toList)

/-! ## Pattern registry (src/background.js lines 12-77) -/

/-- One entry of the list built by `buildPatterns`. -/
structure RefPattern where
  name : String
  test : String → Bool
  apiEndpoint : String
  apiParam : String
  urlTemplate : String

/-- The `referencePrefixes` object from storage: a partial map from the
four order keys to literal prefixes (source field names end in `Prefix`). -/
structure PfxConfig where
  buildOrderPfx : Option String := none
  purchaseOrderPfx : Option String := none
  salesOrderPfx : Option String := none
  returnOrderPfx : Option String := none

/-- `buildPatterns` (src/background.js lines 26-71): spreads the supplied
config over `DEFAULT_PREFIXES` (a missing key keeps its default) and builds
the fixed-order pattern list. -/
def buildPatterns (cfg : PfxConfig) : List RefPattern :=
  let bo := cfg.buildOrderPfx.getD "BO-"
  let po := cfg.purchaseOrderPfx.getD "PO-"
  let so := cfg.salesOrderPfx.getD "SO-"
  let ro := cfg.returnOrderPfx.getD "RMA-"
  [ { name := "Part", test := partRegexTest,
      apiEndpoint := "/api/part/", apiParam := "IPN",
      urlTemplate := "/web/part/\x7bid\x7d/details" },
    { name := "Build Order", test := orderRegexTest bo,
      apiEndpoint := "/api/build/", apiParam := "reference",
      urlTemplate := "/web/manufacturing/build-order/\x7bid\x7d/details" },
    { name := "Purchase Order", test := orderRegexTest po,
      apiEndpoint := "/api/order/po/", apiParam := "reference",
      urlTemplate := "/web/purchasing/purchase-order/\x7bid\x7d/detail" },
    { name := "Sales Order", test := orderRegexTest so,
      apiEndpoint := "/api/order/so/", apiParam := "reference",
      urlTemplate := "/web/sales/sales-order/\x7bid\x7d/detail" },
    { name := "Return Order", test := orderRegexTest ro,
      apiEndpoint := "/api/order/ro/", apiParam := "reference",
      urlTemplate := "/web/sales/return-order/\x7bid\x7d/detail" } ]

/-- `findMatchingPattern` (src/background.js lines 104-112): first pattern
whose regex accepts the text. -/
def findMatchingPattern (patterns : List RefPattern) (text : String) : Option RefPattern :=
  patterns.find? (fun p => p.test text)

/-! ## History store (src/background.js lines 3, 131-150) -/

def MAX_HISTORY : Nat := 20

/-- One element of the `lookupHistory` list (source field `type` is the
Lean keyword, embedded as `type'`). -/
structure HistoryEntry where
  reference : String
  type' : String
  url : String
  success : Bool
  timestamp : Nat
deriving DecidableEq

/-- `addToHistory` (src/background.js lines 131-150): drop entries with the
same reference, prepend the new entry, truncate to `MAX_HISTORY`.  The wall
clock `Date.now()` is the explicit argument `now`. -/
def addToHistory (reference type' url : String) (success : Bool) (now : Nat)
    (lookupHistory : List HistoryEntry) : List HistoryEntry :=
  ({ reference := reference, type' := type', url := url, success := success,
      timestamp := now } ::
    lookupHistory.filter (fun item => item.reference != reference)).take MAX_HISTORY

/-! ## Settings and environment (src/background.js lines 6-10, 74-92, 177) -/

/-- The sync-storage keys read by the background worker.  A key absent from
storage is `none`. -/
structure Settings where
  inventreeUrl : Option String := none
  apiToken : Option String := none
  referencePfx : Option PfxConfig := none
  defaultLandingPage : Option String := none

/-- The `replace(/\/+$/, '')` of `getBaseUrl`. -/
def stripTrailingSlashes (u : String) : String :=
  String.mk ((u.toList.reverse.dropWhile (fun c => c == '/')).reverse)

/-- `getBaseUrl` (src/background.js lines 6-10): `null` when the stored URL
is absent or empty (JS falsiness), otherwise the URL without trailing
slashes. -/
def getBaseUrl (s : Settings) : Option String :=
  match s.inventreeUrl with
  | none => none
  | some u => if u == "" then none else some (stripTrailingSlashes u)

/-- The `LANDING_PAGES` table (src/background.js lines 80-86). -/
def LANDING_PAGES (key : String) : Option String :=
  if key == "parts" then some "/web/part/category/index/parts"
  else if key == "salesOrders" then some "/web/sales/index/salesorders"
  else if key == "purchaseOrders" then some "/web/purchasing/index/purchaseorders"
  else if key == "buildOrders" then some "/web/manufacturing/index/buildorders"
  else if key == "returnOrders" then some "/web/sales/index/returnorders"
  else none

/-- `getFallbackUrl` (src/background.js lines 89-92):
`LANDING_PAGES[defaultLandingPage] || LANDING_PAGES.parts`. -/
def getFallbackUrl (s : Settings) : String :=
  (s.defaultLandingPage.bind LANDING_PAGES).getD "/web/part/category/index/parts"

/-- The `if (!apiToken)` test at src/background.js line 179: a token is
present when the stored value is neither absent nor the empty string. -/
def tokenPresent (s : Settings) : Bool :=
  match s.apiToken with
  | none => false
  | some t => t != ""

/-! ## Remote query model (src/background.js lines 189-214) -/

/-- One network request issued by the resolver:
`GET baseUrl ++ endpoint ? param = value`. -/
structure FetchCall where
  endpoint : String
  param : String
  value : String
deriving DecidableEq

/-- A record of the remote collection; only its `pk` field is consumed
(src/background.js line 227). -/
structure ApiRecord where
  pk : Nat
deriving DecidableEq

/-- Decoded response body: paginated object with a `results` list, or a bare
list (src/background.js line 214). -/
inductive FetchBody where
  | paginated (results : List ApiRecord)
  | direct (results : List ApiRecord)
deriving DecidableEq

/-- `data.results || data`: both body shapes yield their record list (an
empty JS array is truthy, so an empty paginated `results` is kept as-is). -/
def FetchBody.resultsList : FetchBody → List ApiRecord
  | .paginated rs => rs
  | .direct rs => rs

/-- Outcome of one `fetch`: the thrown transport error (caught at
src/background.js line 232), a non-success HTTP status
(`!response.ok`, line 201), or a decoded body. -/
inductive FetchResult where
  | transportError
  | httpError
  | ok (body : FetchBody)
deriving DecidableEq

/-! ## Lookup resolver (src/background.js lines 153-241) -/

/-- The terminal action of one lookup: `chrome.runtime.openOptionsPage()`
(request configuration), or `chrome.tabs.create` on a record detail URL
(direct open) or on the fallback landing URL. -/
inductive Action where
  | requestConfiguration
  | openDirect (url : String)
  | openFallback (url : String)
deriving DecidableEq

/-- `copyToClipboard` (src/background.js lines 115-128): writes only when a
tab context exists (`if (!tabId) return` — a missing or zero id is falsy). -/
def copyToClipboard (text : String) (tabId : Option Nat) : Option String :=
  match tabId with
  | none => none
  | some id => if id == 0 then none else some text

/-- Everything observable about one run of `performLookup`: the terminal
action, the final history list, the text put on the clipboard (if any), and
the network calls issued, in order. -/
structure LookupResult where
  action : Action
  history : List HistoryEntry
  clipboard : Option String
  fetches : List FetchCall
deriving DecidableEq

/-- `performLookup` (src/background.js lines 153-241), with storage and the
network made explicit.  `oracle` answers the single fetch the code can make;
`now` is `Date.now()`; `lookupHistory` is the stored history before the
call. -/
def performLookup (s : Settings) (oracle : FetchCall → FetchResult) (now : Nat)
    (lookupHistory : List HistoryEntry) (searchText : String) (tabId : Option Nat) :
    LookupResult :=
  match getBaseUrl s with
  | none =>
    -- line 157: not configured — open the options page, touch nothing else
    { action := .requestConfiguration, history := lookupHistory,
      clipboard := none, fetches := [] }
  | some baseUrl =>
    let selectedText := jsToUpper (jsTrim searchText)
    let fallbackUrl := getFallbackUrl s
    match findMatchingPattern (buildPatterns (s.referencePfx.getD {})) selectedText with
    | none =>
      -- line 167: no pattern — fallback, history records the original-cased trim
      { action := .openFallback (baseUrl ++ fallbackUrl),
        history := addToHistory (jsTrim searchText) "Search" (baseUrl ++ fallbackUrl)
          false now lookupHistory,
        clipboard := copyToClipboard (jsTrim searchText) tabId,
        fetches := [] }
    | some pattern =>
      if !tokenPresent s then
        -- line 179: no token — fallback without any network call
        { action := .openFallback (baseUrl ++ fallbackUrl),
          history := addToHistory selectedText pattern.name (baseUrl ++ fallbackUrl)
            false now lookupHistory,
          clipboard := copyToClipboard (jsTrim searchText) tabId,
          fetches := [] }
      else
        let call : FetchCall :=
          { endpoint := pattern.apiEndpoint, param := pattern.apiParam,
            value := selectedText }
        match oracle call with
        | .transportError =>
          -- line 232: caught error — fallback
          { action := .openFallback (baseUrl ++ fallbackUrl),
            history := addToHistory selectedText pattern.name (baseUrl ++ fallbackUrl)
              false now lookupHistory,
            clipboard := copyToClipboard (jsTrim searchText) tabId,
            fetches := [call] }
        | .httpError =>
          -- line 201: non-success status — fallback
          { action := .openFallback (baseUrl ++ fallbackUrl),
            history := addToHistory selectedText pattern.name (baseUrl ++ fallbackUrl)
              false now lookupHistory,
            clipboard := copyToClipboard (jsTrim searchText) tabId,
            fetches := [call] }
        | .ok body =>
          match body.resultsList with
          | [] =>
            -- line 216: zero records — fallback
            { action := .openFallback (baseUrl ++ fallbackUrl),
              history := addToHistory selectedText pattern.name (baseUrl ++ fallbackUrl)
                false now lookupHistory,
              clipboard := copyToClipboard (jsTrim searchText) tabId,
              fetches := [call] }
          | record :: _ =>
            -- line 227: first record's pk into the URL template
            let url := baseUrl ++ jsReplaceFirst pattern.urlTemplate "\x7bid\x7d" (toString record.pk)
            { action := .openDirect url,
              history := addToHistory selectedText pattern.name url true now lookupHistory,
              clipboard := none,
              fetches := [call] }

/-! ## Prefix auto-detection (src/options.js lines 8-62) -/

/-- Index of the first `\x7b` in a character list (JS `indexOf('\x7b')`,
`none` standing for `-1`). -/
def braceIdx : List Char → Option Nat
  | [] => none
  | c :: cs => if c == '\x7b' then some 0 else (braceIdx cs).map (· + 1)

/-- `extractPrefixFromPattern` (src/options.js lines 17-24): `null` for a
falsy argument or a pattern with no `\x7b`; otherwise `substring(0, braceIndex)`
— which is the empty string when the pattern starts with `\x7b`. -/
def extractPrefixFromPattern (pat : String) : Option String :=
  if pat == "" then none
  else
    match braceIdx pat.toList with
    | none => none
    | some i => some (String.mk (pat.toList.take i))

/-- The `REFERENCE_PATTERN_KEYS` table (src/options.js lines 9-14), mapping a
global-setting key to the storage key of its detected literal. -/
def REFERENCE_PATTERN_KEYS (key : String) : Option String :=
  if key == "BUILDORDER_REFERENCE_PATTERN" then some "buildOrderPrefix"
  else if key == "PURCHASEORDER_REFERENCE_PATTERN" then some "purchaseOrderPrefix"
  else if key == "SALESORDER_REFERENCE_PATTERN" then some "salesOrderPrefix"
  else if key == "RETURNORDER_REFERENCE_PATTERN" then some "returnOrderPrefix"
  else none

/-- One element of the global-settings response consumed by
`fetchReferencePatterns`. -/
structure GlobalSetting where
  key : String
  value : String
deriving DecidableEq

/-- Outcome of the settings fetch inside `fetchReferencePatterns`; a decoded
body already reduced to its settings list (`data.results || data`). -/
inductive SettingsFetchResult where
  | transportError
  | httpError
  | ok (settings : List GlobalSetting)
deriving DecidableEq

/-- Assignment `patterns[k] = v` on the JS object, modelled as an
association list: overwrite an existing key, otherwise append. -/
def insertKey (m : List (String × String)) (k v : String) : List (String × String) :=
  if m.any (fun kv => kv.1 == k) then
    m.map (fun kv => if kv.1 == k then (k, v) else kv)
  else m ++ [(k, v)]

/-- Body of the `for (const setting of settings)` loop of
`fetchReferencePatterns` (src/options.js lines 48-55): keep the extracted
literal only when its key is recognised and the literal is truthy
(non-null and non-empty). -/
def collectPatternsStep (acc : List (String × String)) (setting : GlobalSetting) :
    List (String × String) :=
  match REFERENCE_PATTERN_KEYS setting.key with
  | none => acc
  | some settingKey =>
    match extractPrefixFromPattern setting.value with
    | none => acc
    | some pfx => if pfx != "" then insertKey acc settingKey pfx else acc

/-- `fetchReferencePatterns` (src/options.js lines 27-62): `null` on any
fetch failure; otherwise collect the detected literals; `null` instead of an
empty map when nothing was collected. -/
def fetchReferencePatterns (resp : SettingsFetchResult) :
    Option (List (String × String)) :=
  match resp with
  | .transportError => none
  | .httpError => none
  | .ok settings =>
    let patterns := settings.foldl collectPatternsStep []
    if patterns.length > 0 then some patterns else none

/-! ## Concrete fixtures used by the claim theorems and their witnesses -/

/-- Configured server and token with a detected purchase-order literal `PO`,
so that `PO1234` is recognised as a purchase order. -/
def poSettings : Settings :=
  { inventreeUrl := some "https://inv.example.com", apiToken := some "TESTTOKEN",
    referencePfx := some { purchaseOrderPfx := some "PO" } }

/-- Remote server holding exactly one purchase order, `PO1234`, with pk 42,
answered as a paginated body. -/
def poOracle : FetchCall → FetchResult := fun call =>
  if call == { endpoint := "/api/order/po/", param := "reference", value := "PO1234" }
  then .ok (.paginated [{ pk := 42 }]) else .ok (.paginated [])

/-- Remote server whose every collection is empty (paginated shape). -/
def emptyOracle : FetchCall → FetchResult := fun _ => .ok (.paginated [])

/-- Configured server URL with no API token stored. -/
def urlOnlySettings : Settings := { inventreeUrl := some "https://inv.example.com" }

/-- Configured server URL and token, default patterns. -/
def urlTokenSettings : Settings :=
  { inventreeUrl := some "https://inv.example.com", apiToken := some "TESTTOKEN" }

/-- A past fallback lookup of reference `Ri`, used to build sample
histories. -/
def sampleEntry (i : Nat) : HistoryEntry :=
  { reference := "R" ++ toString i, type' := "Search",
    url := "https://inv.example.com/web/part/category/index/parts", success := false,
    timestamp := i }

/-- A history of exactly `MAX_HISTORY` entries with references `R0`..`R19`. -/
def fullHistory : List HistoryEntry :=
  (List.range 20).map sampleEntry

/-- A two-entry history whose front reference `PO7` is about to be re-looked
up. -/
def dupHistory : List HistoryEntry :=
  [ { reference := "PO7", type' := "Purchase Order",
      url := "https://inv.example.com/web/purchasing/purchase-order/7/detail",
      success := true, timestamp := 1 },
    { reference := "X", type' := "Search",
      url := "https://inv.example.com/web/part/category/index/parts",
      success := false, timestamp := 2 } ]

/-- The Part pattern, the head of every `buildPatterns` result. -/
def partPattern : RefPattern :=
  { name := "Part", test := partRegexTest, apiEndpoint := "/api/part/",
    apiParam := "IPN", urlTemplate := "/web/part/\x7bid\x7d/details" }

/-! ## Helper lemmas -/

/-- The entry just added by `addToHistory` is the front of the list. -/
theorem addToHistory_head (r t u : String) (b : Bool) (now : Nat)
    (h : List HistoryEntry) :
    (addToHistory r t u b now h).head? = some ⟨r, t, u, b, now⟩ := rfl

/-- Every element of `addToHistory`'s output is the new entry or came from
the input history. -/
theorem mem_addToHistory (e : HistoryEntry) (r t u : String) (b : Bool) (now : Nat)
    (h : List HistoryEntry) (he : e ∈ addToHistory r t u b now h) :
    e = ⟨r, t, u, b, now⟩ ∨ e ∈ h := by
  simp only [addToHistory] at he
  rcases List.mem_cons.mp (List.mem_of_mem_take he) with h2 | h2
  · exact Or.inl h2
  · exact Or.inr (List.mem_of_mem_filter h2)

/-- A filter that keeps every element is the identity. -/
theorem filter_eq_self_of_all {α : Type} (p : α → Bool) (l : List α)
    (hp : ∀ a ∈ l, p a = true) : l.filter p = l := by
  induction l with
  | nil => rfl
  | cons a l ih =>
    rw [List.filter_cons, if_pos (hp a (List.mem_cons_self a l)),
      ih (fun x hx => hp x (List.mem_cons_of_mem a hx))]

/-- Shape analysis of `performLookup`: it either only opens the options
page, or opens a fallback URL recording an unsuccessful entry for it, or
opens a direct URL recording a successful entry for it. -/
theorem performLookup_cases (s : Settings) (oracle : FetchCall → FetchResult) (now : Nat)
    (h : List HistoryEntry) (text : String) (tab : Option Nat) :
    performLookup s oracle now h text tab =
        { action := .requestConfiguration, history := h, clipboard := none, fetches := [] } ∨
    (∃ url ref ty clip fs, performLookup s oracle now h text tab =
        { action := .openFallback url, history := addToHistory ref ty url false now h,
          clipboard := clip, fetches := fs }) ∨
    (∃ url ref ty fs, performLookup s oracle now h text tab =
        { action := .openDirect url, history := addToHistory ref ty url true now h,
          clipboard := none, fetches := fs }) := by
  simp only [performLookup]
  split
  · exact Or.inl rfl
  · split
    · exact Or.inr (Or.inl ⟨_, _, _, _, _, rfl⟩)
    · split
      · exact Or.inr (Or.inl ⟨_, _, _, _, _, rfl⟩)
      · split
        · exact Or.inr (Or.inl ⟨_, _, _, _, _, rfl⟩)
        · exact Or.inr (Or.inl ⟨_, _, _, _, _, rfl⟩)
        · split
          · exact Or.inr (Or.inl ⟨_, _, _, _, _, rfl⟩)
          · exact Or.inr (Or.inr ⟨_, _, _, _, rfl⟩)

/-- When the matched pattern's query errors out (transport or HTTP) or
returns zero records, `performLookup` issues exactly that one call and falls
back, recording an unsuccessful entry for the upper-cased text. -/
theorem performLookup_fallback_of_empty_or_error (s : Settings)
    (oracle : FetchCall → FetchResult) (now : Nat) (h : List HistoryEntry)
    (text : String) (tab : Option Nat) (b : String) (p : RefPattern)
    (hb : getBaseUrl s = some b)
    (hp : findMatchingPattern (buildPatterns (s.referencePfx.getD {})) (jsToUpper (jsTrim text)) = some p)
    (htok : tokenPresent s = true)
    (herr : oracle ⟨p.apiEndpoint, p.apiParam, jsToUpper (jsTrim text)⟩ = .transportError ∨
            oracle ⟨p.apiEndpoint, p.apiParam, jsToUpper (jsTrim text)⟩ = .httpError ∨
            ∃ body, oracle ⟨p.apiEndpoint, p.apiParam, jsToUpper (jsTrim text)⟩ = .ok body ∧
              body.resultsList = []) :
    performLookup s oracle now h text tab =
      { action := .openFallback (b ++ getFallbackUrl s),
        history := addToHistory (jsToUpper (jsTrim text)) p.name (b ++ getFallbackUrl s)
          false now h,
        clipboard := copyToClipboard (jsTrim text) tab,
        fetches := [⟨p.apiEndpoint, p.apiParam, jsToUpper (jsTrim text)⟩] } := by
  simp only [performLookup, hb, hp, htok, Bool.not_true, Bool.false_eq_true, if_false]
  rcases herr with he | he | ⟨body, hok, hnil⟩
  · rw [he]
  · rw [he]
  · simp only [hok, hnil]

/-- `dropCI` consumes exactly a case-insensitive copy of the literal. -/
theorem dropCI_eq_some_iff (p : List Char) : ∀ (l rest : List Char),
    dropCI p l = some rest ↔
      ∃ l1, l = l1 ++ rest ∧ l1.map Char.toUpper = p.map Char.toUpper := by
  induction p with
  | nil =>
    intro l rest
    constructor
    · intro hd
      exact ⟨[], by simpa [dropCI] using hd, rfl⟩
    · rintro ⟨l1, rfl, hmap⟩
      have : l1 = [] := by simpa using hmap
      subst this
      rfl
  | cons pc ps ih =>
    intro l rest
    cases l with
    | nil =>
      constructor
      · intro hd; exact absurd hd (by simp [dropCI])
      · rintro ⟨l1, hl, hmap⟩
        rcases List.append_eq_nil.mp hl.symm with ⟨rfl, rfl⟩
        simp at hmap
    | cons c cs =>
      by_cases hc : ciCharEq pc c = true
      · rw [show dropCI (pc :: ps) (c :: cs) = dropCI ps cs from by simp [dropCI, hc], ih]
        constructor
        · rintro ⟨l1, rfl, hmap⟩
          refine ⟨c :: l1, rfl, ?_⟩
          have hcu : pc.toUpper = c.toUpper := by simpa [ciCharEq] using hc
          simp [hmap, hcu]
        · rintro ⟨l1, heq, hmap⟩
          cases l1 with
          | nil => simp at hmap
          | cons a l1' =>
            rw [List.cons_append] at heq
            obtain ⟨rfl, rfl⟩ : c = a ∧ cs = l1' ++ rest := by simpa using heq
            obtain ⟨-, h2⟩ : c.toUpper = pc.toUpper ∧
                l1'.map Char.toUpper = ps.map Char.toUpper := by simpa using hmap
            exact ⟨l1', rfl, h2⟩
      · rw [show dropCI (pc :: ps) (c :: cs) = none from by simp [dropCI, hc]]
        constructor
        · intro hd; exact absurd hd (by simp)
        · rintro ⟨l1, heq, hmap⟩
          cases l1 with
          | nil => simp at hmap
          | cons a l1' =>
            rw [List.cons_append] at heq
            obtain ⟨rfl, -⟩ : c = a ∧ cs = l1' ++ rest := by simpa using heq
            obtain ⟨h1, -⟩ : c.toUpper = pc.toUpper ∧
                l1'.map Char.toUpper = ps.map Char.toUpper := by simpa using hmap
            refine absurd ?_ hc
            simp only [ciCharEq, beq_iff_eq]
            exact h1.symm

/-- An order pattern of `buildPatterns` accepts exactly the strings made of
a case-insensitive copy of the configured literal followed by one or more
digits: escaping the literal means no character of it can act as a regex
operator. -/
theorem orderRegexTest_iff (pfx s : String) :
    orderRegexTest pfx s = true ↔
      ∃ l1 l2, s.toList = l1 ++ l2 ∧
        l1.map Char.toUpper = pfx.toList.map Char.toUpper ∧
        l2 ≠ [] ∧ ∀ c ∈ l2, isRegexDigit c = true := by
  unfold orderRegexTest
  cases hd : dropCI pfx.toList s.toList with
  | none =>
    constructor
    · intro hx; exact absurd hx (by simp)
    · rintro ⟨l1, l2, hsplit, hmap, -, -⟩
      have : dropCI pfx.toList s.toList = some l2 :=
        (dropCI_eq_some_iff pfx.toList s.toList l2).mpr ⟨l1, hsplit, hmap⟩
      rw [hd] at this
      cases this
  | some rest =>
    rcases (dropCI_eq_some_iff pfx.toList s.toList rest).mp hd with ⟨l1, hsplit, hmap⟩
    constructor
    · intro hx
      obtain ⟨hne, hall⟩ : rest.isEmpty = false ∧ ∀ c ∈ rest, isRegexDigit c = true := by
        simpa using hx
      refine ⟨l1, rest, hsplit, hmap, ?_, hall⟩
      intro hnil
      rw [hnil] at hne
      cases hne
    · rintro ⟨l1', l2', hsplit', hmap', hne', hall'⟩
      have hsome : dropCI pfx.toList s.toList = some l2' :=
        (dropCI_eq_some_iff pfx.toList s.toList l2').mpr ⟨l1', hsplit', hmap'⟩
      rw [hd] at hsome
      obtain rfl : rest = l2' := by injection hsome
      have h1 : rest.isEmpty = false := by
        cases rest
        · exact absurd rfl hne'
        · rfl
      have h2 : rest.all isRegexDigit = true := List.all_eq_true.mpr hall'
      simp [h1, h2]

/-- Membership after a JS-object assignment. -/
theorem mem_insertKey (m : List (String × String)) (k v : String)
    (kv : String × String) (hm : kv ∈ insertKey m k v) : kv = (k, v) ∨ kv ∈ m := by
  unfold insertKey at hm
  split at hm
  · rcases List.mem_map.mp hm with ⟨kv', hkv', heq⟩
    split at heq
    · exact Or.inl heq.symm
    · exact Or.inr (heq ▸ hkv')
  · rcases List.mem_append.mp hm with h1 | h1
    · exact Or.inr h1
    · exact Or.inl (List.mem_singleton.mp h1)

/-- One loop step of `fetchReferencePatterns` only ever stores a non-empty
literal. -/
theorem collectPatternsStep_nonempty (acc : List (String × String))
    (st : GlobalSetting) (hacc : ∀ kv ∈ acc, kv.2 ≠ "")
    (kv : String × String) (hm : kv ∈ collectPatternsStep acc st) : kv.2 ≠ "" := by
  unfold collectPatternsStep at hm
  cases hk : REFERENCE_PATTERN_KEYS st.key with
  | none => simp only [hk] at hm; exact hacc kv hm
  | some settingKey =>
    simp only [hk] at hm
    cases hx : extractPrefixFromPattern st.value with
    | none => simp only [hx] at hm; exact hacc kv hm
    | some pfx =>
      simp only [hx] at hm
      by_cases hpfx : (pfx != "") = true
      · rw [if_pos hpfx] at hm
        rcases mem_insertKey acc settingKey pfx kv hm with rfl | h1
        · simpa using hpfx
        · exact hacc kv h1
      · rw [if_neg hpfx] at hm
        exact hacc kv hm

/-- The whole detection loop only ever stores non-empty literals. -/
theorem foldl_collect_nonempty (settings : List GlobalSetting) :
    ∀ (acc : List (String × String)), (∀ kv ∈ acc, kv.2 ≠ "") →
      ∀ kv ∈ settings.foldl collectPatternsStep acc, kv.2 ≠ "" := by
  induction settings with
  | nil => intro acc hacc kv hm; exact hacc kv hm
  | cons st rest ih =>
    intro acc hacc kv hm
    exact ih (collectPatternsStep acc st)
      (fun kv' h' => collectPatternsStep_nonempty acc st hacc kv' h') kv hm

/-! ## Claim theorems -/

/-- Claim C7: the part pattern — the head of every `buildPatterns` list,
whose test is `partRegexTest` — matches exactly the stated shapes:
`CE1234`, `CE1234B`, `CE1234-01` and `ce1234-01a` match (case-insensitive),
while `CE12` and `CE12345B` do not. -/
theorem c7_part_pattern_shapes :
    (∀ cfg : PfxConfig, (buildPatterns cfg).head? = some partPattern) ∧
    partRegexTest "CE1234" = true ∧ partRegexTest "CE1234B" = true ∧
    partRegexTest "CE1234-01" = true ∧ partRegexTest "ce1234-01a" = true ∧
    partRegexTest "CE12" = false ∧ partRegexTest "CE12345B" = false :=
  ⟨fun _ => rfl, rfl, rfl, rfl, rfl, rfl, rfl⟩

/-- Claim C3: with no base server URL configured, `performLookup` returns
the request-configuration action immediately: no network call is issued and
the history list is returned unchanged. -/
theorem c3_no_base_url (s : Settings) (oracle : FetchCall → FetchResult) (now : Nat)
    (h : List HistoryEntry) (text : String) (tab : Option Nat)
    (hb : getBaseUrl s = none) :
    performLookup s oracle now h text tab =
      { action := .requestConfiguration, history := h, clipboard := none, fetches := [] } := by
  simp only [performLookup, hb]

/-- Witness for `c3_no_base_url` at the empty settings. -/
theorem c3_no_base_url_witness :
    performLookup {} (fun _ => .transportError) 3 [sampleEntry 0] "CE1234" (some 5) =
      { action := .requestConfiguration, history := [sampleEntry 0],
        clipboard := none, fetches := [] } :=
  c3_no_base_url {} (fun _ => .transportError) 3 [sampleEntry 0] "CE1234" (some 5) rfl

/-- Claim C4: the history list never exceeds `MAX_HISTORY` = 20 entries;
inserting a fresh reference into a full history of 20 drops the oldest
(last) entry, leaving the length at 20. -/
theorem c4_history_capacity (r t u : String) (b : Bool) (now : Nat)
    (h : List HistoryEntry) (hlen : h.length = 20)
    (hfresh : ∀ e ∈ h, e.reference ≠ r) :
    addToHistory r t u b now h = ⟨r, t, u, b, now⟩ :: h.dropLast ∧
    (addToHistory r t u b now h).length = 20 ∧
    ∀ (r' t' u' : String) (b' : Bool) (now' : Nat) (h' : List HistoryEntry),
      (addToHistory r' t' u' b' now' h').length ≤ 20 := by
  have hfilter : h.filter (fun item => item.reference != r) = h :=
    filter_eq_self_of_all _ h (fun e he => by simpa using hfresh e he)
  have hmain : addToHistory r t u b now h = ⟨r, t, u, b, now⟩ :: h.take 19 := by
    simp only [addToHistory, hfilter]
    rfl
  have h19 : h.take 19 = h.dropLast := by
    rw [List.dropLast_eq_take h, hlen]
  refine ⟨by rw [hmain, h19], ?_, ?_⟩
  · rw [hmain, h19]
    simp [List.length_dropLast, hlen]
  · intro r' t' u' b' now' h'
    simp only [addToHistory]
    exact List.length_take_le MAX_HISTORY _

/-- Witness for `c4_history_capacity` on a concrete full history of 20
entries and the fresh reference `NEW`. -/
theorem c4_history_capacity_witness :
    addToHistory "NEW" "Search" "u" false 99 fullHistory =
      ⟨"NEW", "Search", "u", false, 99⟩ :: fullHistory.dropLast ∧
    (addToHistory "NEW" "Search" "u" false 99 fullHistory).length = 20 ∧
    ∀ (r' t' u' : String) (b' : Bool) (now' : Nat) (h' : List HistoryEntry),
      (addToHistory r' t' u' b' now' h').length ≤ 20 :=
  c4_history_capacity "NEW" "Search" "u" false 99 fullHistory (by decide) (by decide)

/-- Claim C5: re-recording a reference already present in the history puts
the new entry (with the updated timestamp) at the front, leaves no other
entry with that reference, and preserves the all-references-distinct
invariant, so duplicates never coexist. -/
theorem c5_history_dedup (r t u : String) (b : Bool) (now : Nat)
    (h : List HistoryEntry) (hpres : ∃ e ∈ h, e.reference = r) :
    (addToHistory r t u b now h).head? = some ⟨r, t, u, b, now⟩ ∧
    (∀ e ∈ addToHistory r t u b now h, e.reference = r → e = ⟨r, t, u, b, now⟩) ∧
    (h.Pairwise (fun e1 e2 => e1.reference ≠ e2.reference) →
      (addToHistory r t u b now h).Pairwise (fun e1 e2 => e1.reference ≠ e2.reference)) := by
  refine ⟨addToHistory_head r t u b now h, ?_, ?_⟩
  · intro e he hr
    simp only [addToHistory] at he
    rcases List.mem_cons.mp (List.mem_of_mem_take he) with h2 | h2
    · exact h2
    · have hne : e.reference ≠ r := by simpa using List.of_mem_filter h2
      exact absurd hr hne
  · intro hpw
    have hfil : (h.filter (fun item => item.reference != r)).Pairwise
        (fun e1 e2 => e1.reference ≠ e2.reference) := hpw.filter _
    have hcons : ((⟨r, t, u, b, now⟩ : HistoryEntry) ::
        h.filter (fun item => item.reference != r)).Pairwise
        (fun e1 e2 => e1.reference ≠ e2.reference) := by
      rw [List.pairwise_cons]
      refine ⟨?_, hfil⟩
      intro e he
      have hne : e.reference ≠ r := by simpa using List.of_mem_filter he
      exact fun hEq => hne hEq.symm
    simpa only [addToHistory] using hcons.sublist (List.take_sublist MAX_HISTORY _)

/-- Witness for `c5_history_dedup` on a two-entry history re-recording the
reference `PO7`. -/
theorem c5_history_dedup_witness :
    (addToHistory "PO7" "Purchase Order" "u9" true 50 dupHistory).head? =
      some ⟨"PO7", "Purchase Order", "u9", true, 50⟩ ∧
    (∀ e ∈ addToHistory "PO7" "Purchase Order" "u9" true 50 dupHistory,
      e.reference = "PO7" → e = ⟨"PO7", "Purchase Order", "u9", true, 50⟩) ∧
    (dupHistory.Pairwise (fun e1 e2 => e1.reference ≠ e2.reference) →
      (addToHistory "PO7" "Purchase Order" "u9" true 50 dupHistory).Pairwise
        (fun e1 e2 => e1.reference ≠ e2.reference)) :=
  c5_history_dedup "PO7" "Purchase Order" "u9" true 50 dupHistory (by decide)

/-- Claim C6: with the purchase-order literal detected as `PO` and the
server answering the paginated body with one record of pk 42 for
`/api/order/po/?reference=PO1234`, looking up `PO1234` opens the
purchase-order detail URL with 42 substituted for the id placeholder and
appends exactly one history entry, successful; and in general an entry with
`success = true` is only ever recorded when the action is a direct open. -/
theorem c6_po_direct_lookup :
    performLookup poSettings poOracle 1000 [] "PO1234" none =
      { action := .openDirect
          "https://inv.example.com/web/purchasing/purchase-order/42/detail",
        history := [⟨"PO1234", "Purchase Order",
          "https://inv.example.com/web/purchasing/purchase-order/42/detail",
          true, 1000⟩],
        clipboard := none,
        fetches := [⟨"/api/order/po/", "reference", "PO1234"⟩] } ∧
    ∀ (s : Settings) (oracle : FetchCall → FetchResult) (now : Nat)
      (h : List HistoryEntry) (text : String) (tab : Option Nat) (e : HistoryEntry),
      e ∈ (performLookup s oracle now h text tab).history → e.success = true →
      e ∈ h ∨ ∃ u, (performLookup s oracle now h text tab).action = Action.openDirect u := by
  constructor
  · rfl
  · intro s oracle now h text tab e he hs
    rcases performLookup_cases s oracle now h text tab with
      hc | ⟨url, ref, ty, clip, fs, hc⟩ | ⟨url, ref, ty, fs, hc⟩
    · rw [hc] at he
      exact Or.inl he
    · rw [hc] at he
      rcases mem_addToHistory e ref ty url false now h he with rfl | hmem
      · simp at hs
      · exact Or.inl hmem
    · exact Or.inr ⟨url, by rw [hc]⟩

/-- Witness for the general part of `c6_po_direct_lookup`: on the concrete
successful run, the recorded successful entry indeed comes with a direct
open action. -/
theorem c6_po_direct_lookup_witness :
    (⟨"PO1234", "Purchase Order",
        "https://inv.example.com/web/purchasing/purchase-order/42/detail",
        true, 1000⟩ : HistoryEntry) ∈ ([] : List HistoryEntry) ∨
    ∃ u, (performLookup poSettings poOracle 1000 [] "PO1234" none).action =
      Action.openDirect u :=
  c6_po_direct_lookup.2 poSettings poOracle 1000 [] "PO1234" none
    ⟨"PO1234", "Purchase Order",
      "https://inv.example.com/web/purchasing/purchase-order/42/detail", true, 1000⟩
    (by decide) (by decide)

/-- Claim C9: a transport error or a non-success HTTP response at the query
step never escapes `performLookup`: the run is identical to a zero-records
run, ending in the fallback action with an unsuccessful history entry. -/
theorem c9_error_degrades (s : Settings) (oracle : FetchCall → FetchResult)
    (now : Nat) (h : List HistoryEntry) (text : String) (tab : Option Nat)
    (b : String) (p : RefPattern)
    (hb : getBaseUrl s = some b)
    (hp : findMatchingPattern (buildPatterns (s.referencePfx.getD {}))
      (jsToUpper (jsTrim text)) = some p)
    (htok : tokenPresent s = true)
    (herr : oracle ⟨p.apiEndpoint, p.apiParam, jsToUpper (jsTrim text)⟩ = .transportError ∨
            oracle ⟨p.apiEndpoint, p.apiParam, jsToUpper (jsTrim text)⟩ = .httpError) :
    performLookup s oracle now h text tab =
      { action := .openFallback (b ++ getFallbackUrl s),
        history := addToHistory (jsToUpper (jsTrim text)) p.name (b ++ getFallbackUrl s)
          false now h,
        clipboard := copyToClipboard (jsTrim text) tab,
        fetches := [⟨p.apiEndpoint, p.apiParam, jsToUpper (jsTrim text)⟩] } ∧
    performLookup s oracle now h text tab =
      performLookup s (fun _ => .ok (.paginated [])) now h text tab := by
  have h1 := performLookup_fallback_of_empty_or_error s oracle now h text tab b p
    hb hp htok (herr.imp id Or.inl)
  have h2 := performLookup_fallback_of_empty_or_error s (fun _ => FetchResult.ok (.paginated []))
    now h text tab b p hb hp htok (Or.inr (Or.inr ⟨.paginated [], rfl, rfl⟩))
  exact ⟨h1, h1.trans h2.symm⟩

/-- Witness for `c9_error_degrades`: a simulated network failure on the
part-pattern query for `CE1234`. -/
theorem c9_error_degrades_witness :
    performLookup urlTokenSettings (fun _ => .transportError) 11 [] "CE1234" none =
      { action := .openFallback
          ("https://inv.example.com" ++ getFallbackUrl urlTokenSettings),
        history := addToHistory (jsToUpper (jsTrim "CE1234")) partPattern.name
          ("https://inv.example.com" ++ getFallbackUrl urlTokenSettings) false 11 [],
        clipboard := copyToClipboard (jsTrim "CE1234") none,
        fetches := [⟨partPattern.apiEndpoint, partPattern.apiParam,
          jsToUpper (jsTrim "CE1234")⟩] } ∧
    performLookup urlTokenSettings (fun _ => .transportError) 11 [] "CE1234" none =
      performLookup urlTokenSettings (fun _ => .ok (.paginated [])) 11 [] "CE1234" none :=
  c9_error_degrades urlTokenSettings (fun _ => .transportError) 11 [] "CE1234" none
    "https://inv.example.com" partPattern rfl rfl rfl (Or.inl rfl)

/-- Claim C1 as stated is false on the code: with the purchase-order query
returning zero records, the run emits the fallback action after exactly one
network call — no secondary part-endpoint (IPN) query is ever issued. -/
theorem c1_counterexample :
    (performLookup poSettings emptyOracle 5 [] "PO1234" none).action =
      Action.openFallback "https://inv.example.com/web/part/category/index/parts" ∧
    (performLookup poSettings emptyOracle 5 [] "PO1234" none).fetches =
      [⟨"/api/order/po/", "reference", "PO1234"⟩] ∧
    ∀ c ∈ (performLookup poSettings emptyOracle 5 [] "PO1234" none).fetches,
      c.endpoint ≠ "/api/part/" := by
  refine ⟨rfl, rfl, ?_⟩
  decide

/-- Claim C1, amended: when the matched pattern's query fails or returns
zero records, `performLookup` emits the fallback action directly, and the
only network call of the whole run is the matched pattern's query. -/
theorem c1_no_secondary_lookup (s : Settings) (oracle : FetchCall → FetchResult)
    (now : Nat) (h : List HistoryEntry) (text : String) (tab : Option Nat)
    (b : String) (p : RefPattern)
    (hb : getBaseUrl s = some b)
    (hp : findMatchingPattern (buildPatterns (s.referencePfx.getD {}))
      (jsToUpper (jsTrim text)) = some p)
    (htok : tokenPresent s = true)
    (herr : oracle ⟨p.apiEndpoint, p.apiParam, jsToUpper (jsTrim text)⟩ = .transportError ∨
            oracle ⟨p.apiEndpoint, p.apiParam, jsToUpper (jsTrim text)⟩ = .httpError ∨
            ∃ body, oracle ⟨p.apiEndpoint, p.apiParam, jsToUpper (jsTrim text)⟩ = .ok body ∧
              body.resultsList = []) :
    performLookup s oracle now h text tab =
      { action := .openFallback (b ++ getFallbackUrl s),
        history := addToHistory (jsToUpper (jsTrim text)) p.name (b ++ getFallbackUrl s)
          false now h,
        clipboard := copyToClipboard (jsTrim text) tab,
        fetches := [⟨p.apiEndpoint, p.apiParam, jsToUpper (jsTrim text)⟩] } ∧
    (performLookup s oracle now h text tab).fetches =
      [⟨p.apiEndpoint, p.apiParam, jsToUpper (jsTrim text)⟩] := by
  have h1 := performLookup_fallback_of_empty_or_error s oracle now h text tab b p
    hb hp htok herr
  exact ⟨h1, by rw [h1]⟩

/-- Witness for `c1_no_secondary_lookup` on the zero-records purchase-order
run. -/
theorem c1_no_secondary_lookup_witness :
    performLookup poSettings emptyOracle 5 [] "PO1234" none =
      { action := .openFallback
          ("https://inv.example.com" ++ getFallbackUrl poSettings),
        history := addToHistory (jsToUpper (jsTrim "PO1234")) "Purchase Order"
          ("https://inv.example.com" ++ getFallbackUrl poSettings) false 5 [],
        clipboard := copyToClipboard (jsTrim "PO1234") none,
        fetches := [⟨"/api/order/po/", "reference", jsToUpper (jsTrim "PO1234")⟩] } ∧
    (performLookup poSettings emptyOracle 5 [] "PO1234" none).fetches =
      [⟨"/api/order/po/", "reference", jsToUpper (jsTrim "PO1234")⟩] :=
  c1_no_secondary_lookup poSettings emptyOracle 5 [] "PO1234" none
    "https://inv.example.com"
    ⟨"Purchase Order", orderRegexTest "PO", "/api/order/po/", "reference",
      "/web/purchasing/purchase-order/\x7bid\x7d/detail"⟩
    rfl rfl rfl (Or.inr (Or.inr ⟨.paginated [], rfl, rfl⟩))

/-- Claim C2 as stated is false on the code: looking up `ce1234` (which
matches the part pattern) with no API token records the upper-cased
`CE1234`, not the original-cased trimmed text `ce1234`. -/
theorem c2_counterexample :
    ((performLookup urlOnlySettings emptyOracle 7 [] "ce1234" none).history.map
      (fun e => e.reference)) = ["CE1234"] ∧
    jsTrim "ce1234" = "ce1234" ∧ ("CE1234" : String) ≠ "ce1234" := by
  refine ⟨rfl, rfl, ?_⟩
  decide

/-- Claim C2, amended: the history entry of a lookup stores the
original-cased trimmed text only when no pattern matched (the `Search`
entry); whenever a pattern matched, the upper-cased trimmed text is stored
instead. -/
theorem c2_reference_casing (s : Settings) (oracle : FetchCall → FetchResult)
    (now : Nat) (h : List HistoryEntry) (text : String) (tab : Option Nat)
    (b : String) (hb : getBaseUrl s = some b) :
    (findMatchingPattern (buildPatterns (s.referencePfx.getD {}))
        (jsToUpper (jsTrim text)) = none →
      (performLookup s oracle now h text tab).history.head? =
        some ⟨jsTrim text, "Search", b ++ getFallbackUrl s, false, now⟩) ∧
    (∀ p, findMatchingPattern (buildPatterns (s.referencePfx.getD {}))
        (jsToUpper (jsTrim text)) = some p →
      ((performLookup s oracle now h text tab).history.head?.map
        (fun e => e.reference)) = some (jsToUpper (jsTrim text))) := by
  constructor
  · intro hnone
    simp only [performLookup, hb, hnone]
    exact addToHistory_head _ _ _ _ _ _
  · intro p hp
    simp only [performLookup, hb, hp]
    split
    · simp [addToHistory_head]
    · split
      · simp [addToHistory_head]
      · simp [addToHistory_head]
      · split
        · simp [addToHistory_head]
        · simp [addToHistory_head]

/-- Witness for `c2_reference_casing`: the `ce1234` lookup records
`CE1234`. -/
theorem c2_reference_casing_witness :
    ((performLookup urlOnlySettings emptyOracle 7 [] "ce1234" none).history.head?.map
      (fun e => e.reference)) = some (jsToUpper (jsTrim "ce1234")) :=
  (c2_reference_casing urlOnlySettings emptyOracle 7 [] "ce1234" none
    "https://inv.example.com" rfl).2 partPattern rfl

/-- Claim C8: `buildPatterns` keeps the default literals for keys missing
from the override and installs the supplied ones; an order pattern accepts
exactly a case-insensitive copy of its literal followed by one or more
digits (the literal is regex-escaped, so none of its characters can act as
an operator); with the override `PUR-`, `PUR-77` matches the purchase-order
pattern and `PO-77` matches nothing. -/
theorem c8_build_patterns_override :
    buildPatterns { purchaseOrderPfx := some "PUR-" } =
      [ partPattern,
        ⟨"Build Order", orderRegexTest "BO-", "/api/build/", "reference",
          "/web/manufacturing/build-order/\x7bid\x7d/details"⟩,
        ⟨"Purchase Order", orderRegexTest "PUR-", "/api/order/po/", "reference",
          "/web/purchasing/purchase-order/\x7bid\x7d/detail"⟩,
        ⟨"Sales Order", orderRegexTest "SO-", "/api/order/so/", "reference",
          "/web/sales/sales-order/\x7bid\x7d/detail"⟩,
        ⟨"Return Order", orderRegexTest "RMA-", "/api/order/ro/", "reference",
          "/web/sales/return-order/\x7bid\x7d/detail"⟩ ] ∧
    (∀ pfx s : String, orderRegexTest pfx s = true ↔
      ∃ l1 l2, s.toList = l1 ++ l2 ∧
        l1.map Char.toUpper = pfx.toList.map Char.toUpper ∧
        l2 ≠ [] ∧ ∀ c ∈ l2, isRegexDigit c = true) ∧
    ((findMatchingPattern (buildPatterns { purchaseOrderPfx := some "PUR-" })
        "PUR-77").map (fun p => p.name)) = some "Purchase Order" ∧
    findMatchingPattern (buildPatterns { purchaseOrderPfx := some "PUR-" })
      "PO-77" = none :=
  ⟨rfl, orderRegexTest_iff, rfl, rfl⟩

/-- Witness for the characterisation inside `c8_build_patterns_override`,
on the accepted input `PUR-77`. -/
theorem c8_build_patterns_override_witness :
    ∃ l1 l2, ("PUR-77").toList = l1 ++ l2 ∧
      l1.map Char.toUpper = ("PUR-").toList.map Char.toUpper ∧
      l2 ≠ [] ∧ ∀ c ∈ l2, isRegexDigit c = true :=
  (c8_build_patterns_override.2.1 "PUR-" "PUR-77").mp rfl

/-- Claim C10 as stated is false on the code: for a server pattern that
starts with its substitution (no literal before the first brace),
`extractPrefixFromPattern` returns the empty string, not `null`. -/
theorem c10_counterexample :
    extractPrefixFromPattern "\x7bref:04d\x7d" = some "" ∧
    some "" ≠ (none : Option String) := by
  refine ⟨rfl, ?_⟩
  decide

/-- Claim C10, amended: `extractPrefixFromPattern` can return the empty
string (not `null`) for a pattern with no leading literal, but
`fetchReferencePatterns` keeps only truthy (non-empty) literals and returns
`null` rather than an empty map, so every saved literal is non-empty. -/
theorem c10_saved_nonempty (resp : SettingsFetchResult)
    (m : List (String × String)) (hm : fetchReferencePatterns resp = some m) :
    m ≠ [] ∧ ∀ kv ∈ m, kv.2 ≠ "" := by
  cases resp with
  | transportError => exact absurd hm (by simp [fetchReferencePatterns])
  | httpError => exact absurd hm (by simp [fetchReferencePatterns])
  | ok settings =>
    simp only [fetchReferencePatterns] at hm
    by_cases hlen : (settings.foldl collectPatternsStep []).length > 0
    · rw [if_pos hlen] at hm
      obtain rfl : settings.foldl collectPatternsStep [] = m := by injection hm
      constructor
      · intro hnil
        rw [hnil] at hlen
        simp at hlen
      · exact foldl_collect_nonempty settings [] (fun kv hkv => absurd hkv (by simp))
    · rw [if_neg hlen] at hm
      cases hm

/-- Witness for `c10_saved_nonempty` on a response holding one build-order
pattern with the literal `BO-`. -/
theorem c10_saved_nonempty_witness :
    ([("buildOrderPrefix", "BO-")] : List (String × String)) ≠ [] ∧
    ∀ kv ∈ ([("buildOrderPrefix", "BO-")] : List (String × String)), kv.2 ≠ "" :=
  c10_saved_nonempty
    (.ok [⟨"BUILDORDER_REFERENCE_PATTERN", "BO-\x7bref:04d\x7d"⟩])
    [("buildOrderPrefix", "BO-")] rfl

end InvLook
